import Mathlib

/-!
Shallow embedding of the authentication/authorization core of `src/index.js`
(an Express application with signup, login, a members page, and an admin page
that can promote/demote user roles), together with theorems settling the
spec's claims about it.

User records mirror the documents of the `users` MongoDB collection; the
collection itself is modelled as a `List UserRec` in insertion order, so that
`findOne` is first-match lookup and `updateOne` rewrites the first matching
document.  Sessions mirror the fields the handlers write on `req.session`.
-/

/-- A document of the `users` collection: `{ _id, name, email, password, user_type }`
as inserted by POST /signup (src/index.js line 102). `_id` is modelled as a `Nat`. -/
structure UserRec where
  _id : Nat
  name : String
  email : String
  password : String
  user_type : String
deriving DecidableEq

/-- The session fields the handlers read and write on `req.session`:
`authenticated`, `name`, `user_type`, `user_id`.  Fields a handler has not set
are `none` (JavaScript `undefined`). -/
structure SessionState where
  authenticated : Bool
  name : Option String
  user_type : Option String
  user_id : Option Nat
deriving DecidableEq

/-- A fresh session before any handler has written to it. -/
def defaultSession : SessionState :=
  { authenticated := false, name := none, user_type := none, user_id := none }

/-- The observable outcome of a request: either `res.redirect(path)` (HTTP 302)
or `res.render(view, data)` carried out with the response status current at that
point (`status` is 200 unless a middleware called `res.status`).  `users` is the
user list passed to the admin view (empty for every other view) and `error` the
error message passed to the view, when any. -/
inductive HttpResponse where
  | redirect (path : String)
  | render (view : String) (status : Nat) (users : List UserRec) (error : Option String)
deriving DecidableEq

/-- The per-request mutable context the middleware chain threads to the handler:
`req.session`, the `req.permissionDenied` flag set by `isAdmin`, and the
response status set so far (`res.status`). -/
structure ReqCtx where
  session : SessionState
  permissionDenied : Bool
  resStatus : Nat
deriving DecidableEq

/-- `usersCollection.findOne({ email })` (src/index.js lines 91 and 126):
first document whose `email` field matches, in insertion order. -/
def findOneByEmail (users : List UserRec) (email : String) : Option UserRec :=
  match users with
  | [] => none
  | u :: rest => if u.email == email then some u else findOneByEmail rest email

/-- `usersCollection.findOne` by `_id`: first document whose `_id` matches. -/
def findById (users : List UserRec) (uid : Nat) : Option UserRec :=
  match users with
  | [] => none
  | u :: rest => if u._id == uid then some u else findById rest uid

/-- `usersCollection.updateOne({ _id }, { $set: { user_type: t } })`
(src/index.js lines 191 and 196): rewrites the `user_type` field of the first
document whose `_id` matches, leaving everything else unchanged. -/
def updateOneSetUserType (users : List UserRec) (uid : Nat) (t : String) : List UserRec :=
  match users with
  | [] => []
  | u :: rest =>
    if u._id == uid then { u with user_type := t } :: rest
    else u :: updateOneSetUserType rest uid t

/-- Modelled from the spec (§2, MongoDB `insertOne` assigns the `_id`; the id
generator itself is not in src/): a fresh id strictly larger than every id in
the collection. -/
def freshId (users : List UserRec) : Nat :=
  (users.map (fun u => u._id)).foldr max 0 + 1

/-- Modelled from the spec (§4.1, the bcrypt library is not in src/):
`hash(plaintext) -> hash_string` produces an irreversible salted digest; the
salt, cost factor and digest computation are abstracted into an injective
tagged encoding, keeping the contract `verify(p, hash(p)) = true` and
`verify(p2, hash(p)) = false` for `p2 ≠ p`. -/
def bcrypt_hash (plaintext : String) : String :=
  "$2b$12$" ++ plaintext

/-- Modelled from the spec (§4.1): `verify(plaintext, hash_string)` recomputes
the digest for the salt/cost embedded in `hash_string` and compares. -/
def bcrypt_compare (plaintext stored : String) : Bool :=
  stored == bcrypt_hash plaintext

/-- The `isAuthenticated` middleware (src/index.js lines 39-42): if
`req.session.authenticated` call `next()` (the `Except.ok` branch carries the
request on), otherwise respond `res.redirect('/login')` and stop
(the `Except.error` branch short-circuits with that response). -/
def isAuthenticated (req : ReqCtx) : Except HttpResponse ReqCtx :=
  if req.session.authenticated then Except.ok req
  else Except.error (HttpResponse.redirect "/login")

/-- The `isAdmin` middleware (src/index.js lines 44-52): if
`req.session.user_type === 'admin'` call `next()` unchanged; otherwise set
`req.permissionDenied = true` and `res.status(403)` and STILL call `next()` —
it never short-circuits. -/
def isAdmin (req : ReqCtx) : Except HttpResponse ReqCtx :=
  if req.session.user_type = some "admin" then Except.ok req
  else Except.ok { req with permissionDenied := true, resStatus := 403 }

/-- Express's sequencing of `isAuthenticated`, a second middleware and a
handler on one route: each middleware either responds (the chain stops with
that response) or passes the request context on to the next stage. -/
def runAuthAdmin (α : Type) (sess : SessionState)
    (gate2 : ReqCtx → Except HttpResponse ReqCtx)
    (short : HttpResponse → α) (handler : ReqCtx → α) : α :=
  match isAuthenticated { session := sess, permissionDenied := false, resStatus := 200 } with
  | Except.error r => short r
  | Except.ok req =>
    match gate2 req with
    | Except.error r => short r
    | Except.ok req2 => handler req2

/-- GET /members (src/index.js lines 170-172): gated by `isAuthenticated`
only, then renders the members view. -/
def getMembers (sess : SessionState) : HttpResponse :=
  match isAuthenticated { session := sess, permissionDenied := false, resStatus := 200 } with
  | Except.error r => r
  | Except.ok req => HttpResponse.render "members" req.resStatus [] none

/-- The GET /admin handler body (src/index.js lines 174-186): if
`req.permissionDenied` render the admin view with an empty user list and the
403 message (at the 403 status `isAdmin` installed), else render it with the
full user list. -/
def adminHandler (users : List UserRec) (req : ReqCtx) : HttpResponse :=
  if req.permissionDenied then
    HttpResponse.render "admin" req.resStatus []
      (some "403: You do not have permission to view this page.")
  else
    HttpResponse.render "admin" req.resStatus users none

/-- GET /admin (src/index.js lines 174-186): `isAuthenticated`, then
`isAdmin`, then `adminHandler`. -/
def getAdmin (users : List UserRec) (sess : SessionState) : HttpResponse :=
  runAuthAdmin HttpResponse sess isAdmin id (adminHandler users)

/-- The GET /promote/:id handler body (src/index.js lines 190-193): it
unconditionally updates the target's `user_type` to `'admin'` and redirects to
/admin — it never consults `req.permissionDenied`. -/
def promoteHandler (users : List UserRec) (uid : Nat) (_req : ReqCtx) :
    HttpResponse × List UserRec :=
  (HttpResponse.redirect "/admin", updateOneSetUserType users uid "admin")

/-- The GET /demote/:id handler body (src/index.js lines 195-198): like
`promoteHandler` with `user_type` set to `'user'`. -/
def demoteHandler (users : List UserRec) (uid : Nat) (_req : ReqCtx) :
    HttpResponse × List UserRec :=
  (HttpResponse.redirect "/admin", updateOneSetUserType users uid "user")

/-- GET /promote/:id (src/index.js lines 190-193): both gates, then the
unconditional update-and-redirect handler.  Returns the response and the
users collection after the request. -/
def getPromote (users : List UserRec) (sess : SessionState) (uid : Nat) :
    HttpResponse × List UserRec :=
  runAuthAdmin (HttpResponse × List UserRec) sess isAdmin
    (fun r => (r, users)) (promoteHandler users uid)

/-- GET /demote/:id (src/index.js lines 195-198). -/
def getDemote (users : List UserRec) (sess : SessionState) (uid : Nat) :
    HttpResponse × List UserRec :=
  runAuthAdmin (HttpResponse × List UserRec) sess isAdmin
    (fun r => (r, users)) (demoteHandler users uid)

/-- A list of characters split at every occurrence of `c` (helper for the
email-shape check below). -/
def splitOnChar (c : Char) (l : List Char) : List (List Char) :=
  match l with
  | [] => [[]]
  | x :: xs =>
    let r := splitOnChar c xs
    if x = c then [] :: r
    else
      match r with
      | [] => [[x]]
      | y :: ys => (x :: y) :: ys

/-- Modelled from the spec (§6, the Joi library is not in src/): "identity must
be a valid email-shaped string" — exactly one `@`, a nonempty part before it,
and a domain of at least two nonempty dot-separated segments. -/
def isEmailShaped (e : String) : Bool :=
  match splitOnChar '@' e.data with
  | [u, d] =>
    (!u.isEmpty) &&
      (let segs := splitOnChar '.' d
       decide (segs.length ≥ 2) && segs.all (fun s => !s.isEmpty))
  | _ => false

/-- Modelled from the spec (§6, the Joi schema of src/index.js lines 72-76 is
library code): display name required non-empty, identity email-shaped,
password required non-empty; the first failing rule's message is returned. -/
def validateSignup (name email password : String) : Option String :=
  if name = "" then some "name is required"
  else if !isEmailShaped email then some "email must be a valid email"
  else if password = "" then some "password is required"
  else none

/-- What a route leaves behind: the response sent, the users collection after
the request, and the requester's session after the request. -/
structure RouteResult where
  response : HttpResponse
  users : List UserRec
  session : SessionState
deriving DecidableEq

/-- POST /signup (src/index.js lines 71-109) with the awaited result of
`usersCollection.findOne({ email })` passed in as `findResult`.  The handler
has NO try/catch: a rejected storage promise (`Except.error`) propagates out
of the handler (the outer `Except.error`) and no response is produced.
Validation failure and duplicate email re-render the form; otherwise the user
is inserted with `user_type: 'user'` and the session is set to
`authenticated = true`, `name`, `user_type = 'user'` (and nothing else). -/
def postSignupTry (findResult : Except String (Option UserRec))
    (users : List UserRec) (sess : SessionState)
    (name email password : String) : Except String RouteResult :=
  match validateSignup name email password with
  | some msg =>
    Except.ok { response := HttpResponse.render "signup" 200 [] (some msg),
                users := users, session := sess }
  | none =>
    match findResult with
    | Except.error e => Except.error e
    | Except.ok (some _) =>
      Except.ok { response := HttpResponse.render "signup" 200 [] (some "Email already in use"),
                  users := users, session := sess }
    | Except.ok none =>
      Except.ok
        { response := HttpResponse.redirect "/members",
          users := users ++
            [{ _id := freshId users, name := name, email := email,
               password := bcrypt_hash password, user_type := "user" }],
          session := { sess with
                        authenticated := true,
                        name := some name,
                        user_type := some "user" } }

/-- POST /signup when the storage lookup succeeds. -/
def postSignup (users : List UserRec) (sess : SessionState)
    (name email password : String) : Except String RouteResult :=
  postSignupTry (Except.ok (findOneByEmail users email)) users sess name email password

/-- POST /login (src/index.js lines 123-162) with the awaited result of
`usersCollection.findOne({ email })` passed in as `findResult`.  Unlike
signup, the whole body sits in a try/catch: a rejected promise is caught and
the login form re-rendered with the generic message, so the handler is total.
Unknown email and wrong password re-render the form with their distinct
messages; on success the session receives the snapshot
`authenticated = true`, `name`, `user_type`, `user_id` from the user record. -/
def postLoginTry (findResult : Except String (Option UserRec))
    (users : List UserRec) (sess : SessionState)
    (_email password : String) : RouteResult :=
  match findResult with
  | Except.error _ =>
    { response := HttpResponse.render "login" 200 []
        (some "Something went wrong. Try again."),
      users := users, session := sess }
  | Except.ok none =>
    { response := HttpResponse.render "login" 200 [] (some "Email not found"),
      users := users, session := sess }
  | Except.ok (some user) =>
    if bcrypt_compare password user.password then
      { response := HttpResponse.redirect "/members",
        users := users,
        session := { sess with
                      authenticated := true,
                      name := some user.name,
                      user_type := some user.user_type,
                      user_id := some user._id } }
    else
      { response := HttpResponse.render "login" 200 [] (some "Incorrect password"),
        users := users, session := sess }

/-- POST /login when the storage lookup succeeds. -/
def postLogin (users : List UserRec) (sess : SessionState)
    (email password : String) : RouteResult :=
  postLoginTry (Except.ok (findOneByEmail users email)) users sess email password

/-- Modelled from the spec (§4.3, the express-session store is library code):
the process-wide mapping from an opaque session token to session state. -/
abbrev SessionStore : Type := List (String × SessionState)

/-- Modelled from the spec (§4.3): `get(token) -> SessionState`; a token with
no stored state behaves as a fresh unauthenticated session. -/
def getSession (store : SessionStore) (token : String) : SessionState :=
  match store with
  | [] => defaultSession
  | (t, s) :: rest => if t == token then s else getSession rest token

/-- Modelled from the spec (§4.3): persisting the (possibly mutated) session
state for a token at the end of a request. -/
def setSession (store : SessionStore) (token : String) (s : SessionState) : SessionStore :=
  match store with
  | [] => [(token, s)]
  | (t, s0) :: rest =>
    if t == token then (t, s) :: rest else (t, s0) :: setSession rest token s

/-- Modelled from the spec (§4.3): `destroy(token)` removes all session state
stored for the token. -/
def destroySession (store : SessionStore) (token : String) : SessionStore :=
  match store with
  | [] => []
  | (t, s) :: rest =>
    if t == token then destroySession rest token
    else (t, s) :: destroySession rest token

/-- GET /logout (src/index.js lines 165-168): `req.session.destroy()` then
`res.redirect('/')`. -/
def getLogout (store : SessionStore) (token : String) : HttpResponse × SessionStore :=
  (HttpResponse.redirect "/", destroySession store token)

/-- The cross-request mutable state: the `users` collection and the session
store. -/
structure AppState where
  users : List UserRec
  sessions : SessionStore

/-- GET /promote/:id at the application level: the requester's session is read
from the session store, the route runs, and only the users collection can
change — the handler never writes to any session. -/
def handlePromote (st : AppState) (token : String) (uid : Nat) :
    HttpResponse × AppState :=
  let r := getPromote st.users (getSession st.sessions token) uid
  (r.fst, { users := r.snd, sessions := st.sessions })

/-- GET /demote/:id at the application level. -/
def handleDemote (st : AppState) (token : String) (uid : Nat) :
    HttpResponse × AppState :=
  let r := getDemote st.users (getSession st.sessions token) uid
  (r.fst, { users := r.snd, sessions := st.sessions })

/-- POST /login at the application level: the requester's session is read from
the store and the mutated session written back. -/
def handleLogin (st : AppState) (token : String) (email password : String) :
    HttpResponse × AppState :=
  let r := postLogin st.users (getSession st.sessions token) email password
  (r.response, { users := r.users, sessions := setSession st.sessions token r.session })

/-! Theorems settling the claims. -/

/-- C1 (code bug evidence): for an authenticated session whose role is
`'user'` (not admin), GET /promote/:id does NOT receive the 403 admin-page
rendering and does NOT leave the target's role unchanged: `isAdmin` only flags
the request and the promote handler never checks `req.permissionDenied`
(src/index.js lines 190-193), so the role update runs and the response is a
redirect to /admin.  Dually for GET /demote/:id on a stored admin. -/
theorem promote_demote_bypass_admin_gate :
    getPromote [{ _id := 1, name := "B", email := "b@x.com", password := "h",
                  user_type := "user" }]
        { authenticated := true, name := some "A", user_type := some "user",
          user_id := some 2 } 1
      = (HttpResponse.redirect "/admin",
         [{ _id := 1, name := "B", email := "b@x.com", password := "h",
            user_type := "admin" }]) ∧
    getDemote [{ _id := 1, name := "B", email := "b@x.com", password := "h",
                 user_type := "admin" }]
        { authenticated := true, name := some "A", user_type := some "user",
          user_id := some 2 } 1
      = (HttpResponse.redirect "/admin",
         [{ _id := 1, name := "B", email := "b@x.com", password := "h",
            user_type := "user" }]) := by
  decide

/-- C2: for every authenticated session whose role is not admin, `isAdmin`
does not short-circuit — it passes the request on, flagged permission-denied
and with response status 403 — and GET /admin renders the admin view with an
empty user list and the 403 message at HTTP status 403. -/
theorem adminGate_flagged_continue (users : List UserRec) (sess : SessionState)
    (hauth : sess.authenticated = true) (hrole : sess.user_type ≠ some "admin") :
    isAdmin { session := sess, permissionDenied := false, resStatus := 200 }
      = Except.ok { session := sess, permissionDenied := true, resStatus := 403 } ∧
    getAdmin users sess
      = HttpResponse.render "admin" 403 []
          (some "403: You do not have permission to view this page.") := by
  constructor
  · simp [isAdmin, hrole]
  · simp [getAdmin, runAuthAdmin, isAuthenticated, isAdmin, hauth, hrole, adminHandler]

/-- Witness for C2 at a concrete non-admin session. -/
theorem adminGate_flagged_continue_witness :
    isAdmin { session := { authenticated := true, name := some "A",
                           user_type := some "user", user_id := some 1 },
              permissionDenied := false, resStatus := 200 }
      = Except.ok { session := { authenticated := true, name := some "A",
                                 user_type := some "user", user_id := some 1 },
                    permissionDenied := true, resStatus := 403 } ∧
    getAdmin [] { authenticated := true, name := some "A",
                  user_type := some "user", user_id := some 1 }
      = HttpResponse.render "admin" 403 []
          (some "403: You do not have permission to view this page.") :=
  adminGate_flagged_continue []
    { authenticated := true, name := some "A", user_type := some "user",
      user_id := some 1 } rfl (by decide)

/-- C3: for every session that is not authenticated, every route gated by
`isAuthenticated` followed by a second middleware responds with a redirect to
/login, whatever that second middleware and the handler are — so `isAdmin` is
never evaluated — and in particular GET /members, GET /admin, GET /promote/:id
and GET /demote/:id all redirect to /login (the latter two leaving the users
collection untouched). -/
theorem authGate_rejects_unauthenticated (sess : SessionState)
    (users : List UserRec) (uid : Nat)
    (gate2 : ReqCtx → Except HttpResponse ReqCtx) (handler : ReqCtx → HttpResponse)
    (h : sess.authenticated = false) :
    runAuthAdmin HttpResponse sess gate2 id handler = HttpResponse.redirect "/login" ∧
    getMembers sess = HttpResponse.redirect "/login" ∧
    getAdmin users sess = HttpResponse.redirect "/login" ∧
    getPromote users sess uid = (HttpResponse.redirect "/login", users) ∧
    getDemote users sess uid = (HttpResponse.redirect "/login", users) := by
  refine ⟨?_, ?_, ?_, ?_, ?_⟩ <;>
    simp [runAuthAdmin, getMembers, getAdmin, getPromote, getDemote, isAuthenticated, h]

/-- Witness for C3 at a concrete fresh (unauthenticated) session, with
`isAdmin` itself as the second middleware. -/
theorem authGate_rejects_unauthenticated_witness :
    runAuthAdmin HttpResponse defaultSession isAdmin id (adminHandler [])
      = HttpResponse.redirect "/login" ∧
    getMembers defaultSession = HttpResponse.redirect "/login" ∧
    getAdmin [] defaultSession = HttpResponse.redirect "/login" ∧
    getPromote [] defaultSession 1 = (HttpResponse.redirect "/login", []) ∧
    getDemote [] defaultSession 1 = (HttpResponse.redirect "/login", []) :=
  authGate_rejects_unauthenticated defaultSession [] 1 isAdmin (adminHandler []) rfl

/-- C4: for every identity already present in the store, a POST /signup with
that identity (and otherwise valid input) re-renders the signup form with the
duplicate-email error, inserts no record, and leaves the session untouched
(in particular not promoted to authenticated). -/
theorem signup_duplicate_identity (users : List UserRec) (sess : SessionState)
    (name email password : String) (u : UserRec)
    (hval : validateSignup name email password = none)
    (hdup : findOneByEmail users email = some u) :
    postSignup users sess name email password
      = Except.ok { response := HttpResponse.render "signup" 200 []
                      (some "Email already in use"),
                    users := users, session := sess } := by
  simp [postSignup, postSignupTry, hval, hdup]

/-- Witness for C4: signing up again with the already-stored identity
`a@x.com`. -/
theorem signup_duplicate_identity_witness :
    postSignup [{ _id := 1, name := "A", email := "a@x.com",
                  password := bcrypt_hash "pw123", user_type := "user" }]
        defaultSession "A" "a@x.com" "pw456"
      = Except.ok { response := HttpResponse.render "signup" 200 []
                      (some "Email already in use"),
                    users := [{ _id := 1, name := "A", email := "a@x.com",
                                password := bcrypt_hash "pw123", user_type := "user" }],
                    session := defaultSession } :=
  signup_duplicate_identity
    [{ _id := 1, name := "A", email := "a@x.com",
       password := bcrypt_hash "pw123", user_type := "user" }]
    defaultSession "A" "a@x.com" "pw456"
    { _id := 1, name := "A", email := "a@x.com",
      password := bcrypt_hash "pw123", user_type := "user" }
    (by decide) (by decide)

/-- The modelled hash is injective: distinct plaintexts have distinct
digests. -/
theorem bcrypt_hash_injective (a b : String) (h : bcrypt_hash a = bcrypt_hash b) :
    a = b := by
  have hd := congrArg String.data h
  simp [bcrypt_hash, String.data_append] at hd
  exact String.ext hd

/-- C5: verifying a plaintext against its own hash succeeds, and verifying any
other plaintext against that hash fails. -/
theorem bcrypt_verify_roundtrip (p p2 : String) (h : p2 ≠ p) :
    bcrypt_compare p (bcrypt_hash p) = true ∧
    bcrypt_compare p2 (bcrypt_hash p) = false := by
  constructor
  · simp [bcrypt_compare]
  · have hne : bcrypt_hash p ≠ bcrypt_hash p2 :=
      fun hh => h (bcrypt_hash_injective p p2 hh).symm
    simp only [bcrypt_compare]
    exact beq_eq_false_iff_ne.mpr hne

/-- Witness for C5 at two concrete distinct plaintexts. -/
theorem bcrypt_verify_roundtrip_witness :
    bcrypt_compare "pw123" (bcrypt_hash "pw123") = true ∧
    bcrypt_compare "other" (bcrypt_hash "pw123") = false :=
  bcrypt_verify_roundtrip "pw123" "other" (by decide)

/-- Updating the `user_type` of the first document matching an id commutes
with looking that id up: the lookup finds the same document with its
`user_type` rewritten. -/
theorem findById_updateOne (users : List UserRec) (uid : Nat) (t : String) :
    findById (updateOneSetUserType users uid t) uid
      = (findById users uid).map (fun v => { v with user_type := t }) := by
  induction users with
  | nil => rfl
  | cons u rest ih =>
    by_cases h : u._id = uid
    · simp [findById, updateOneSetUserType, h]
    · simp [findById, updateOneSetUserType, h, ih]

/-- C6: for every user id present in the store, an admin performing
GET /promote/:id followed by GET /demote/:id on that id leaves the target's
role exactly `'user'`. -/
theorem promote_then_demote_roundtrip (users : List UserRec) (sess : SessionState)
    (uid : Nat) (u : UserRec)
    (hauth : sess.authenticated = true) (hrole : sess.user_type = some "admin")
    (hfind : findById users uid = some u) :
    (findById (getDemote (getPromote users sess uid).snd sess uid).snd uid).map
        (fun v => v.user_type)
      = some "user" := by
  simp [getPromote, getDemote, runAuthAdmin, isAuthenticated, isAdmin, hauth, hrole,
        promoteHandler, demoteHandler, findById_updateOne, hfind]

/-- Witness for C6: promote then demote user 1 as a concrete admin. -/
theorem promote_then_demote_roundtrip_witness :
    (findById
        (getDemote
          (getPromote
            [{ _id := 1, name := "B", email := "b@x.com", password := "h",
               user_type := "user" }]
            { authenticated := true, name := some "Root", user_type := some "admin",
              user_id := some 9 } 1).snd
          { authenticated := true, name := some "Root", user_type := some "admin",
            user_id := some 9 } 1).snd 1).map (fun v => v.user_type)
      = some "user" :=
  promote_then_demote_roundtrip
    [{ _id := 1, name := "B", email := "b@x.com", password := "h",
       user_type := "user" }]
    { authenticated := true, name := some "Root", user_type := some "admin",
      user_id := some 9 } 1
    { _id := 1, name := "B", email := "b@x.com", password := "h",
      user_type := "user" }
    rfl rfl (by decide)

/-- After destroying a token's state, looking the token up yields the fresh
unauthenticated default state. -/
theorem getSession_destroySession (store : SessionStore) (token : String) :
    getSession (destroySession store token) token = defaultSession := by
  induction store with
  | nil => rfl
  | cons p rest ih =>
    obtain ⟨t, s⟩ := p
    by_cases h : t = token
    · simp [destroySession, h, ih]
    · simp [destroySession, getSession, h, ih]

/-- C7: GET /logout redirects to / and destroys the requester's session: a
subsequent lookup of that token returns the unauthenticated default state. -/
theorem logout_destroys_session (store : SessionStore) (token : String) :
    (getLogout store token).fst = HttpResponse.redirect "/" ∧
    getSession (getLogout store token).snd token = defaultSession ∧
    defaultSession.authenticated = false :=
  ⟨rfl, by simp [getLogout, getSession_destroySession], rfl⟩

/-- C8 counterexample: POST /signup has no try/catch, so when the
`findOne({ email })` storage call fails on an otherwise valid request the
rejection propagates out of the handler (`Except.error`) — the user is NOT
shown a rendered "something went wrong" response, contradicting the claim
that every storage failure is recovered at the route boundary. -/
theorem signup_storage_failure_unrecovered :
    postSignupTry (Except.error "db failure") [] defaultSession "A" "a@x.com" "pw123"
      = Except.error "db failure" := rfl

/-- C8 (amended): a storage failure is recovered with the generic
"Something went wrong" message at the POST /login route boundary only; at
POST /signup (valid input, so the storage call is reached) the failure
propagates out of the handler with no rendered response. -/
theorem storage_failure_recovery_asymmetry (users : List UserRec)
    (sess : SessionState) (name email password e : String)
    (hval : validateSignup name email password = none) :
    postLoginTry (Except.error e) users sess email password
      = { response := HttpResponse.render "login" 200 []
            (some "Something went wrong. Try again."),
          users := users, session := sess } ∧
    postSignupTry (Except.error e) users sess name email password
      = Except.error e := by
  constructor
  · rfl
  · simp [postSignupTry, hval]

/-- Witness for the amended C8 at a concrete valid signup input and a concrete
storage error. -/
theorem storage_failure_recovery_asymmetry_witness :
    postLoginTry (Except.error "db failure") [] defaultSession "a@x.com" "pw123"
      = { response := HttpResponse.render "login" 200 []
            (some "Something went wrong. Try again."),
          users := [], session := defaultSession } ∧
    postSignupTry (Except.error "db failure") [] defaultSession "A" "a@x.com" "pw123"
      = Except.error "db failure" :=
  storage_failure_recovery_asymmetry [] defaultSession "A" "a@x.com" "pw123"
    "db failure" (by decide)

/-- Writing a token's session state and then looking that token up yields
exactly the written state. -/
theorem getSession_setSession (store : SessionStore) (token : String)
    (s : SessionState) :
    getSession (setSession store token s) token = s := by
  induction store with
  | nil => simp [setSession, getSession]
  | cons p rest ih =>
    obtain ⟨t, s0⟩ := p
    by_cases h : t = token
    · simp [setSession, getSession, h]
    · simp [setSession, getSession, h, ih]

/-- C9: a successful POST /login stores in the session a snapshot of the user
record (authenticated flag, display name, role, user id), and GET /promote/:id
and GET /demote/:id leave the entire session store untouched — no field of any
already-issued session changes when an admin changes a role; only a new login
can rewrite the session. -/
theorem session_is_login_snapshot (st : AppState) (token t2 : String) (uid : Nat)
    (email password : String) (user : UserRec)
    (hfind : findOneByEmail st.users email = some user)
    (hpw : bcrypt_compare password user.password = true) :
    getSession ((handleLogin st token email password).snd).sessions token
      = { authenticated := true, name := some user.name,
          user_type := some user.user_type, user_id := some user._id } ∧
    ((handlePromote st t2 uid).snd).sessions = st.sessions ∧
    ((handleDemote st t2 uid).snd).sessions = st.sessions := by
  refine ⟨?_, rfl, rfl⟩
  simp [handleLogin, postLogin, postLoginTry, hfind, hpw, getSession_setSession]

/-- Witness for C9: a concrete login of `a@x.com` followed by promote/demote
requests under another token. -/
theorem session_is_login_snapshot_witness :
    getSession ((handleLogin
        { users := [{ _id := 1, name := "A", email := "a@x.com",
                      password := bcrypt_hash "pw123", user_type := "user" }],
          sessions := [] } "tok" "a@x.com" "pw123").snd).sessions "tok"
      = { authenticated := true, name := some "A", user_type := some "user",
          user_id := some 1 } ∧
    ((handlePromote
        { users := [{ _id := 1, name := "A", email := "a@x.com",
                      password := bcrypt_hash "pw123", user_type := "user" }],
          sessions := [] } "tok2" 1).snd).sessions = ([] : SessionStore) ∧
    ((handleDemote
        { users := [{ _id := 1, name := "A", email := "a@x.com",
                      password := bcrypt_hash "pw123", user_type := "user" }],
          sessions := [] } "tok2" 1).snd).sessions = ([] : SessionStore) :=
  session_is_login_snapshot
    { users := [{ _id := 1, name := "A", email := "a@x.com",
                  password := bcrypt_hash "pw123", user_type := "user" }],
      sessions := [] } "tok" "tok2" 1 "a@x.com" "pw123"
    { _id := 1, name := "A", email := "a@x.com",
      password := bcrypt_hash "pw123", user_type := "user" }
    (by decide) (by decide)

/-- C10: a successful POST /signup from a fresh session authenticates it and
stores only the display name and the role `'user'` — the session's `user_id`
stays unset — while a successful POST /login stores the user id (with the
other snapshot fields). -/
theorem signup_session_omits_user_id (users users2 : List UserRec)
    (name email password email2 password2 : String) (user : UserRec)
    (hval : validateSignup name email password = none)
    (hfresh : findOneByEmail users email = none)
    (hfind2 : findOneByEmail users2 email2 = some user)
    (hpw : bcrypt_compare password2 user.password = true) :
    postSignup users defaultSession name email password
      = Except.ok
          { response := HttpResponse.redirect "/members",
            users := users ++
              [{ _id := freshId users, name := name, email := email,
                 password := bcrypt_hash password, user_type := "user" }],
            session := { authenticated := true, name := some name,
                         user_type := some "user", user_id := none } } ∧
    (postLogin users2 defaultSession email2 password2).session
      = { authenticated := true, name := some user.name,
          user_type := some user.user_type, user_id := some user._id } := by
  constructor
  · simp [postSignup, postSignupTry, hval, hfresh, defaultSession]
  · simp [postLogin, postLoginTry, hfind2, hpw, defaultSession]

/-- Witness for C10: a concrete fresh signup and a concrete successful
login. -/
theorem signup_session_omits_user_id_witness :
    postSignup [] defaultSession "A" "a@x.com" "pw123"
      = Except.ok
          { response := HttpResponse.redirect "/members",
            users := [] ++
              [{ _id := freshId [], name := "A", email := "a@x.com",
                 password := bcrypt_hash "pw123", user_type := "user" }],
            session := { authenticated := true, name := some "A",
                         user_type := some "user", user_id := none } } ∧
    (postLogin [{ _id := 1, name := "A", email := "a@x.com",
                  password := bcrypt_hash "pw123", user_type := "user" }]
        defaultSession "a@x.com" "pw123").session
      = { authenticated := true, name := some "A", user_type := some "user",
          user_id := some 1 } :=
  signup_session_omits_user_id []
    [{ _id := 1, name := "A", email := "a@x.com",
       password := bcrypt_hash "pw123", user_type := "user" }]
    "A" "a@x.com" "pw123" "a@x.com" "pw123"
    { _id := 1, name := "A", email := "a@x.com",
      password := bcrypt_hash "pw123", user_type := "user" }
    (by decide) (by decide) (by decide) (by decide)
